import Mathlib

/-!
Shallow embedding of `src/flows/my_calculator_stream.py`.

The script drives a desktop calculator via simulated keystrokes and wraps the
interaction in an orchestration flow.  Pure control flow is embedded directly;
the external effects (OS scripting, keystroke simulation, clipboard) are
represented by an explicit environment and by key-event traces.  Python
exceptions are embedded as `Except PyError`.  Two names referenced by the
script, `get_run_logger` (line 81) and `total_count` (line 133), are bound
nowhere in the module, so evaluating them raises `NameError`; the module
namespace is embedded explicitly to capture this.
-/

namespace CalculatorStream

/-- Python exceptions that the embedded script can raise. -/
inductive PyError where
  | nameError (n : String)
  | calledProcessError (cmd : String)
  | importError (modName : String)
deriving DecidableEq

/-- Message text of an exception, standing in for Python `str(e)` as used in the
collection loop of the flow. -/
def pyErrorMessage : PyError → String
  | PyError.nameError n => "NameError: " ++ n
  | PyError.calledProcessError c => "CalledProcessError: " ++ c
  | PyError.importError m => "ImportError: " ++ m

/-- A key event delivered through the keystroke-simulation layer: a single key
press (`pyautogui.press`) or a modifier combination (`pyautogui.hotkey`). -/
inductive KeyEvent where
  | press (key : String)
  | hotkey (keys : List String)
deriving DecidableEq

/-- Names bound at module level in `src/flows/my_calculator_stream.py`: the
imports (`time`, `subprocess`, `pyautogui`, `flow`, `task`) and the five
functions the file defines.  Neither `get_run_logger` nor `total_count` is
among them. -/
def moduleNames : List String :=
  ["time", "subprocess", "pyautogui", "flow", "task",
   "open_calculator", "close_calculator", "hands_press_key",
   "perform_calculation_rpa", "perform_calculation", "calculator_automation_stream"]

/-- Resolution of a global name at use time: a name absent from the module
namespace raises `NameError`, as in Python. -/
def lookupGlobal (n : String) : Except PyError Unit :=
  if n ∈ moduleNames then Except.ok () else Except.error (PyError.nameError n)

/-- Environment for the RPA primitives: whether the `pyperclip` module is
importable (line 61) and the text currently on the system clipboard. -/
structure RpaEnv where
  pyperclipInstalled : Bool
  clipboardText : String

/-- Closed code-point ranges (inclusive) of the characters for which Python
str.isdigit() is true (CPython 3.11, Unicode 14.0): the decimal digits of every
script together with the digit-typed characters such as superscripts and
circled digits.  Line 42's char.isdigit() is this test, not the ASCII-only
Char.isDigit. -/
def pyDigitRanges : List (Nat × Nat) :=
  [(48, 57), (178, 179), (185, 185), (1632, 1641), (1776, 1785), (1984, 1993),
   (2406, 2415), (2534, 2543), (2662, 2671), (2790, 2799), (2918, 2927),
   (3046, 3055), (3174, 3183), (3302, 3311), (3430, 3439), (3558, 3567),
   (3664, 3673), (3792, 3801), (3872, 3881), (4160, 4169), (4240, 4249),
   (4969, 4977), (6112, 6121), (6160, 6169), (6470, 6479), (6608, 6618),
   (6784, 6793), (6800, 6809), (6992, 7001), (7088, 7097), (7232, 7241),
   (7248, 7257), (8304, 8304), (8308, 8313), (8320, 8329), (9312, 9320),
   (9332, 9340), (9352, 9360), (9450, 9450), (9461, 9469), (9471, 9471),
   (10102, 10110), (10112, 10120), (10122, 10130), (42528, 42537),
   (43216, 43225), (43264, 43273), (43472, 43481), (43504, 43513),
   (43600, 43609), (44016, 44025), (65296, 65305), (66720, 66729),
   (68160, 68163), (68912, 68921), (69216, 69224), (69714, 69722),
   (69734, 69743), (69872, 69881), (69942, 69951), (70096, 70105),
   (70384, 70393), (70736, 70745), (70864, 70873), (71248, 71257),
   (71360, 71369), (71472, 71481), (71904, 71913), (72016, 72025),
   (72784, 72793), (73040, 73049), (73120, 73129), (92768, 92777),
   (92864, 92873), (93008, 93017), (120782, 120831), (123200, 123209),
   (123632, 123641), (125264, 125273), (127232, 127242), (130032, 130041)]

/-- Membership of a code point in a list of inclusive ranges. -/
def inRanges (rs : List (Nat × Nat)) (n : Nat) : Bool :=
  rs.any (fun r => r.1 ≤ n && n ≤ r.2)

/-- Python str.isdigit() for one character, as used at line 42. -/
def pyIsDigit (c : Char) : Bool :=
  inRanges pyDigitRanges c.toNat

/-- Code points of the characters for which Python str.isspace() is true
(CPython 3.11, Unicode 14.0): the whitespace set that str.strip() removes at
line 64, larger than Lean's Char.isWhitespace. -/
def pySpaceCodes : List Nat :=
  [9, 10, 11, 12, 13, 28, 29, 30, 31, 32, 133, 160, 5760,
   8192, 8193, 8194, 8195, 8196, 8197, 8198, 8199, 8200, 8201, 8202,
   8232, 8233, 8239, 8287, 12288]

/-- Python whitespace test for one character. -/
def pyIsSpace (c : Char) : Bool :=
  pySpaceCodes.contains c.toNat

/-- Line 39: `key_mapping = \x7b'+': '+', '-': '-', '*': '*', '/': '/'\x7d`. -/
def key_mapping : List (Char × String) :=
  [('+', "+"), ('-', "-"), ('*', "*"), ('/', "/")]

/-- Lines 20-24: `hands_press_key` presses one key (the trailing sleep carries
no observable effect in the embedding). -/
def hands_press_key (key : String) : List KeyEvent :=
  [KeyEvent.press key]

/-- Lines 42-45: the key events emitted for one character of the expression.
Characters Python classifies as digits are pressed as themselves; characters
found in `key_mapping` are pressed via the mapping; every other character
emits nothing. -/
def charKeyEvents (c : Char) : List KeyEvent :=
  if pyIsDigit c then [KeyEvent.press (String.mk [c])]
  else
    match key_mapping.lookup c with
    | some k => [KeyEvent.press k]
    | none => []

/-- Lines 41-46: the loop over the characters of the expression, in order. -/
def expressionKeyEvents (expression : String) : List KeyEvent :=
  expression.data.flatMap charKeyEvents

/-- Python `str.strip()`: characters of Python's whitespace set removed from
both ends. -/
def pyStrip (l : List Char) : List Char :=
  ((l.dropWhile pyIsSpace).reverse.dropWhile pyIsSpace).reverse

/-- Python `str.replace` of the single-character pattern `,` by the empty
string: scan left to right, dropping every occurrence. -/
def pyReplaceComma : List Char → List Char
  | [] => []
  | c :: cs => if c = ',' then pyReplaceComma cs else c :: pyReplaceComma cs

/-- Lines 59-67: read the result from the clipboard.  When `pyperclip` imports,
the clipboard text is returned stripped of surrounding whitespace and with
commas removed; when the import fails, the sentinel string is returned instead
of raising. -/
def readClipboard (env : RpaEnv) : String :=
  if env.pyperclipInstalled then
    String.mk (pyReplaceComma (pyStrip env.clipboardText.data))
  else "Result_Read_Error"

/-- Lines 26-67: `perform_calculation_rpa`.  Emits the clear key, the key
events of the expression, the equals key and the copy hotkey, then reads the
clipboard; the value is the pair of the key-event trace and the result text. -/
def perform_calculation_rpa (env : RpaEnv) (expression : String) :
    List KeyEvent × String :=
  (hands_press_key "c" ++ expressionKeyEvents expression ++
     [KeyEvent.press "="] ++ [KeyEvent.hotkey ["command", "c"]],
   readClipboard env)

/-- The per-calculation outcome dict: `expression` and `status` are always
present; `result` is present on success and `error` on failure. -/
structure CalcOutcome where
  expression : String
  status : String
  result : Option String
  error : Option String
deriving DecidableEq

/-- Lines 74-99: the body of the task `perform_calculation`.  Its first
statement (line 81) evaluates the unbound global `get_run_logger`, so every
invocation raises `NameError` before any RPA step runs; the remaining
statements embed the rest of the body, which on success would return the
success dict built from the RPA result. -/
def perform_calculation (env : RpaEnv) (expression : String) :
    Except PyError CalcOutcome :=
  match lookupGlobal "get_run_logger" with
  | Except.error e => Except.error e
  | Except.ok _ =>
      let r := perform_calculation_rpa env expression
      Except.ok { expression := expression, status := "success",
                  result := some r.2, error := none }

/-- Line 73: the configuration of the `@task` decorator. -/
structure TaskConfig where
  taskName : String
  retries : Nat
  retry_delay_seconds : Nat

/-- Line 73: `@task(name="perform_single_calculation", retries=3,
retry_delay_seconds=5)`. -/
def perform_calculation_task_config : TaskConfig :=
  { taskName := "perform_single_calculation", retries := 3, retry_delay_seconds := 5 }

/-- Trace of one orchestrated task run: how many attempts were made, the delays
waited between consecutive attempts, and the final outcome. -/
structure RetryTrace (α : Type) where
  attemptsMade : Nat
  delays : List Nat
  outcome : Except PyError α

/-- Modelled from the spec: the external orchestration layer runs a task
attempt and, on an exception, retries it up to the configured number of
additional times, waiting the configured delay before each retry; the first
successful attempt ends the run, and when every attempt fails the last failure
is the run's terminal outcome.  `i` numbers the attempts, `r` counts the
retries still allowed. -/
def retryAux (attempt : Nat → Except PyError α) (delay : Nat) :
    Nat → Nat → RetryTrace α
  | i, 0 => { attemptsMade := 1, delays := [], outcome := attempt i }
  | i, r + 1 =>
      match attempt i with
      | Except.ok a => { attemptsMade := 1, delays := [], outcome := Except.ok a }
      | Except.error _ =>
          let t := retryAux attempt delay (i + 1) r
          { attemptsMade := t.attemptsMade + 1, delays := delay :: t.delays,
            outcome := t.outcome }

/-- One orchestrated run of a task under its decorator configuration. -/
def runWithRetries (cfg : TaskConfig) (attempt : Nat → Except PyError α) :
    RetryTrace α :=
  retryAux attempt cfg.retry_delay_seconds 0 cfg.retries

/-- A resolved task-run future as observed by the collection loop: the
positional arguments the task was mapped with, its keyword arguments, and the
final outcome of the run after retries. -/
structure Future where
  args : List String
  kwargs : List (String × String)
  result : Except PyError CalcOutcome

/-- Modelled from the spec: `perform_calculation.map(calculations)` (line 121)
submits one task run per expression, in submission order, passing each
expression as the task's positional argument — so the futures carry no keyword
arguments — and each future resolves to the task's outcome after the retry
policy of its decorator is exhausted. -/
def mapPerformCalculation (env : RpaEnv) (calculations : List String) :
    List Future :=
  calculations.map (fun e =>
    { args := [e], kwargs := [],
      result := (runWithRetries perform_calculation_task_config
                   (fun _ => perform_calculation env e)).outcome })

/-- Python `dict.get` with a default value. -/
def dictGet (kv : List (String × String)) (key dflt : String) : String :=
  match kv.lookup key with
  | some v => v
  | none => dflt

/-- Lines 124-131: one iteration of the collection loop.  A resolved future
contributes the task's dict; a failed one contributes a failed dict whose
expression is `future.kwargs.get('expression', 'Unknown')`. -/
def collectResult (future : Future) : CalcOutcome :=
  match future.result with
  | Except.ok r => r
  | Except.error e =>
      { expression := dictGet future.kwargs "expression" "Unknown",
        status := "failed", result := none,
        error := some (pyErrorMessage e) }

/-- Lines 124-131: the whole collection loop, appending one entry per future
in order. -/
def collectResults (futures : List Future) : List CalcOutcome :=
  futures.map collectResult

/-- The dict the flow would return at line 133. -/
structure FlowReturn where
  status : String
  total_calculations : Nat
  results : List CalcOutcome
deriving DecidableEq

/-- Environment of one flow run: the RPA environment plus whether the
`osascript` commands of open and of close exit non-zero (raising
`CalledProcessError` through `check=True`). -/
structure FlowEnv where
  rpa : RpaEnv
  openRaises : Bool
  closeRaises : Bool

/-- Lines 8-13: `open_calculator`, fatal when the OS command fails. -/
def open_calculator (env : FlowEnv) : Except PyError Unit :=
  if env.openRaises then
    Except.error (PyError.calledProcessError "tell application Calculator to activate")
  else Except.ok ()

/-- Lines 15-18: `close_calculator`, raising when the OS command fails. -/
def close_calculator (env : FlowEnv) : Except PyError Unit :=
  if env.closeRaises then
    Except.error (PyError.calledProcessError "tell application Calculator to quit")
  else Except.ok ()

/-- Lines 117-133: the body of the `try` block.  The tasks are mapped and their
results collected (task failures are recorded, not re-raised), and then the
return expression of line 133 evaluates the unbound global `total_count`, which
raises `NameError`; the `ok` branch is therefore never reached and its
`total_calculations` value is immaterial. -/
def calculator_flow_try (rpa : RpaEnv) (calculations : List String) :
    Except PyError FlowReturn :=
  let result_futures := mapPerformCalculation rpa calculations
  let results := collectResults result_futures
  match lookupGlobal "total_count" with
  | Except.error e => Except.error e
  | Except.ok _ =>
      Except.ok { status := "completed", total_calculations := 0, results := results }

/-- Result of one flow run: how many times `close_calculator` was invoked, and
the returned value or the exception the caller observes. -/
structure FlowRun where
  closeCalls : Nat
  outcome : Except PyError FlowReturn

/-- Lines 105-149: `calculator_automation_stream`.  `open_calculator` runs
before the `try` statement, so when it raises, neither the `except` block nor
the `finally` block runs and close is never invoked.  When the `try` body
raises, the `except` block performs a best-effort close whose own exception is
swallowed and re-raises the original error, and the `finally` block then
performs a second, unprotected close whose exception, if any, replaces the
propagating error.  When the `try` body returns, only the `finally` close runs,
and its exception, if any, replaces the return value. -/
def calculator_automation_stream (env : FlowEnv) (calculations : List String) :
    FlowRun :=
  match open_calculator env with
  | Except.error e => { closeCalls := 0, outcome := Except.error e }
  | Except.ok _ =>
      match calculator_flow_try env.rpa calculations with
      | Except.ok ret =>
          match close_calculator env with
          | Except.ok _ => { closeCalls := 1, outcome := Except.ok ret }
          | Except.error ce => { closeCalls := 1, outcome := Except.error ce }
      | Except.error e =>
          match close_calculator env with
          | Except.ok _ => { closeCalls := 2, outcome := Except.error e }
          | Except.error ce => { closeCalls := 2, outcome := Except.error ce }

/-- An RPA environment with `pyperclip` available and a benign clipboard. -/
def rpaEnvDefault : RpaEnv :=
  { pyperclipInstalled := true, clipboardText := "2" }

/-- A flow environment in which both OS commands succeed. -/
def envNormal : FlowEnv :=
  { rpa := rpaEnvDefault, openRaises := false, closeRaises := false }

/-- A flow environment in which the open command fails. -/
def envOpenFails : FlowEnv :=
  { rpa := rpaEnvDefault, openRaises := true, closeRaises := false }

/-- A flow environment in which the quit command fails. -/
def envCloseFails : FlowEnv :=
  { rpa := rpaEnvDefault, openRaises := false, closeRaises := true }

/-- A success dict such as the task would return were its logger bug absent. -/
def okOutcomeExample : CalcOutcome :=
  { expression := "1+1", status := "success", result := some "2", error := none }

/-- The failed dict actually recorded for every mapped task run. -/
def failedOutcomeExample : CalcOutcome :=
  { expression := "Unknown", status := "failed", result := none,
    error := some "NameError: get_run_logger" }

/-- A task attempt function that behaves as the real task body does. -/
def failingAttempt : Nat → Except PyError CalcOutcome :=
  fun _ => perform_calculation rpaEnvDefault "1+1"

/-- A future that resolved successfully, for exercising the collection loop. -/
def okFutureExample : Future :=
  { args := ["1+1"], kwargs := [], result := Except.ok okOutcomeExample }

/-- The name `total_count` is unbound, so resolving it raises `NameError`. -/
theorem lookupGlobal_total_count :
    lookupGlobal "total_count" = Except.error (PyError.nameError "total_count") := rfl

/-- The task body raises `NameError` on `get_run_logger` for every input. -/
theorem perform_calculation_eq (env : RpaEnv) (expression : String) :
    perform_calculation env expression =
      Except.error (PyError.nameError "get_run_logger") := rfl

/-- The `try` body of the flow always ends by raising `NameError` at line 133. -/
theorem calculator_flow_try_raises (rpa : RpaEnv) (calculations : List String) :
    calculator_flow_try rpa calculations =
      Except.error (PyError.nameError "total_count") := rfl

/-- Every mapped task run exhausts its retries and resolves to the logger
`NameError`. -/
theorem mapped_future_outcome (env : RpaEnv) (e : String) :
    (runWithRetries perform_calculation_task_config
        (fun _ => perform_calculation env e)).outcome =
      Except.error (PyError.nameError "get_run_logger") := rfl

/-- A character outside the digit and operator sets has no entry in
`key_mapping`. -/
theorem lookup_key_mapping_eq_none (c : Char) (hop : c ∉ ['+', '-', '*', '/']) :
    key_mapping.lookup c = none := by
  simp [not_or] at hop
  obtain ⟨h1, h2, h3, h4⟩ := hop
  have e1 : (c == '+') = false := by simpa using h1
  have e2 : (c == '-') = false := by simpa using h2
  have e3 : (c == '*') = false := by simpa using h3
  have e4 : (c == '/') = false := by simpa using h4
  simp [key_mapping, List.lookup, e1, e2, e3, e4]

/-- An ASCII digit is a Python digit: the first range of `pyDigitRanges` is
exactly the code points 48 to 57 Lean's `Char.isDigit` tests. -/
theorem pyIsDigit_of_isDigit (c : Char) (h : c.isDigit = true) :
    pyIsDigit c = true := by
  simp only [Char.isDigit, ge_iff_le, Bool.and_eq_true, decide_eq_true_eq] at h
  have h1 : 48 ≤ c.toNat := UInt32.le_toNat_of_le (by decide) h.1
  have h2 : c.toNat ≤ 57 := UInt32.toNat_le_of_le (by decide) h.2
  refine List.any_eq_true.2 ⟨(48, 57), ?_, ?_⟩
  · decide
  · simp [h1, h2]

/-- Character-list version of the input-driver loop on well-formed input. -/
theorem flatMap_charKeyEvents_of_valid (l : List Char)
    (h : ∀ c ∈ l, c.isDigit = true ∨ c ∈ ['+', '-', '*', '/']) :
    l.flatMap charKeyEvents = l.map (fun c => KeyEvent.press (String.mk [c])) := by
  induction l with
  | nil => rfl
  | cons c cs ih =>
      have hc := h c (List.mem_cons_self c cs)
      have hcs : ∀ x ∈ cs, x.isDigit = true ∨ x ∈ ['+', '-', '*', '/'] :=
        fun x hx => h x (List.mem_cons_of_mem c hx)
      rw [List.flatMap_cons, List.map_cons, ih hcs]
      rcases hc with hd | hop
      · simp [charKeyEvents, pyIsDigit_of_isDigit c hd]
      · have hops : c = '+' ∨ c = '-' ∨ c = '*' ∨ c = '/' := by simpa using hop
        rcases hops with rfl | rfl | rfl | rfl <;> rfl

/-- Removing every occurrence of the comma character is filtering it out. -/
theorem pyReplaceComma_eq_filter (l : List Char) :
    pyReplaceComma l = l.filter (fun c => c ≠ ',') := by
  induction l with
  | nil => rfl
  | cons c cs ih =>
      by_cases hc : c = ','
      · simp [pyReplaceComma, hc, ih]
      · simp [pyReplaceComma, hc, ih]

/-- C1 counterexample: with a failing open the flow run performs zero close
invocations, and with open succeeding it performs two, so `close_calculator` is
not invoked exactly once per flow run. -/
theorem close_calls_counterexample :
    (calculator_automation_stream envOpenFails ["1+1"]).closeCalls = 0 ∧
    (calculator_automation_stream envNormal ["1+1"]).closeCalls = 2 ∧
    (0 : Nat) ≠ 1 ∧ (2 : Nat) ≠ 1 :=
  ⟨rfl, rfl, by decide, by decide⟩

/-- C1 (corrected): `close_calculator` is invoked zero times when
`open_calculator` raises, because open runs before the `try`/`finally`
statement, and twice otherwise — once in the `except` cleanup and once in the
`finally` block — because the `try` body always raises at line 133. -/
theorem close_calls_zero_or_two (env : FlowEnv) (calcs : List String) :
    (calculator_automation_stream env calcs).closeCalls =
      if env.openRaises then 0 else 2 := by
  unfold calculator_automation_stream
  cases h : env.openRaises with
  | true => simp [open_calculator, h]
  | false =>
      simp only [open_calculator, h, if_false, Bool.false_eq_true,
        calculator_flow_try_raises]
      cases close_calculator env <;> rfl

/-- C2 (code_bug): even when the app opens, every task is dispatched, every
result is collected without an uncaught exception and close succeeds, the flow
does not return the completed dict: evaluating the return expression of line
133 raises `NameError` because `total_count` is unbound. -/
theorem flow_return_raises_nameError (calcs : List String) :
    (calculator_automation_stream envNormal calcs).outcome =
      Except.error (PyError.nameError "total_count") := rfl

/-- C3 (code_bug): a single invocation of `perform_calculation` does not
perform the clear/submit/evaluate/read/clear steps and never returns the
success dict: its first statement evaluates the unbound global
`get_run_logger` and raises `NameError` before any key event is emitted. -/
theorem perform_calculation_never_runs_steps :
    perform_calculation rpaEnvDefault "1+1" =
      Except.error (PyError.nameError "get_run_logger") := rfl

/-- C4 counterexample: for input `["1+1"]` the collection loop records the
failed entry with expression `"Unknown"`, not the input expression `"1+1"`. -/
theorem failed_entry_expression_unknown :
    (collectResults (mapPerformCalculation rpaEnvDefault ["1+1"])).map
        (fun o => o.expression) = ["Unknown"] ∧ "Unknown" ≠ "1+1" :=
  ⟨rfl, by decide⟩

/-- C4 (corrected): the collection loop yields exactly one outcome per input,
in order; an entry whose future resolved is the dict the task returned
(carrying the task's own expression), but an entry whose future failed carries
expression `"Unknown"`, because line 130 looks the expression up in the
future's keyword arguments and `map` passes the expression positionally — and
under the actual task body every mapped run fails. -/
theorem collect_results_shape :
    (∀ env calcs,
        (collectResults (mapPerformCalculation env calcs)).length = calcs.length) ∧
    (∀ env calcs, ∀ o ∈ collectResults (mapPerformCalculation env calcs),
        o.status = "failed" ∧ o.expression = "Unknown") ∧
    (∀ f r, f.result = Except.ok r → collectResult f = r) := by
  refine ⟨?_, ?_, ?_⟩
  · intro env calcs
    simp [collectResults, mapPerformCalculation]
  · intro env calcs o ho
    simp only [collectResults, mapPerformCalculation, List.map_map,
      List.mem_map, Function.comp] at ho
    obtain ⟨a, _ha, rfl⟩ := ho
    exact ⟨rfl, rfl⟩
  · intro f r h
    simp [collectResult, h]

/-- C4 witness: with two inputs the loop records two entries; the failed dict
recorded for `["1+1"]` has status failed and expression Unknown; a resolved
future contributes the task's dict unchanged. -/
theorem collect_results_shape_witness :
    (collectResults (mapPerformCalculation rpaEnvDefault ["1+1", "2*3"])).length = 2 ∧
    (failedOutcomeExample.status = "failed" ∧ failedOutcomeExample.expression = "Unknown") ∧
    collectResult okFutureExample = okOutcomeExample :=
  ⟨collect_results_shape.1 rpaEnvDefault ["1+1", "2*3"],
   collect_results_shape.2.1 rpaEnvDefault ["1+1"] failedOutcomeExample (by decide),
   collect_results_shape.2.2 okFutureExample okOutcomeExample rfl⟩

/-- C5 (confirmed): under the decorator configuration of line 73
(retries = 3, retry_delay_seconds = 5), a task whose attempt raises every time
is attempted 1 + 3 times — that is, retried exactly 3 times — with a 5 second
delay recorded before each retry, and its terminal outcome is a failure. -/
theorem task_retry_policy (attempt : Nat → Except PyError CalcOutcome)
    (h : ∀ i, ∃ e, attempt i = Except.error e) :
    (runWithRetries perform_calculation_task_config attempt).attemptsMade = 1 + 3 ∧
    (runWithRetries perform_calculation_task_config attempt).delays = [5, 5, 5] ∧
    ∃ e, (runWithRetries perform_calculation_task_config attempt).outcome =
      Except.error e := by
  obtain ⟨e0, h0⟩ := h 0
  obtain ⟨e1, h1⟩ := h 1
  obtain ⟨e2, h2⟩ := h 2
  obtain ⟨e3, h3⟩ := h 3
  refine ⟨?_, ?_, ⟨e3, ?_⟩⟩ <;>
    simp [runWithRetries, perform_calculation_task_config, retryAux, h0, h1, h2, h3]

/-- C5 witness: the real task body fails on every attempt and is run 4 times
with the 5 second delays, ending in the logger `NameError`. -/
theorem task_retry_policy_witness :
    (runWithRetries perform_calculation_task_config failingAttempt).attemptsMade = 1 + 3 ∧
    (runWithRetries perform_calculation_task_config failingAttempt).delays = [5, 5, 5] ∧
    (runWithRetries perform_calculation_task_config failingAttempt).outcome =
      Except.error (PyError.nameError "get_run_logger") :=
  ⟨(task_retry_policy failingAttempt
      (fun _ => ⟨PyError.nameError "get_run_logger", rfl⟩)).1,
   (task_retry_policy failingAttempt
      (fun _ => ⟨PyError.nameError "get_run_logger", rfl⟩)).2.1, rfl⟩

/-- C6 (confirmed): for an expression whose characters are all digits or one of
`+ - * /`, the input-driver loop emits exactly one key press per character, and
the presses occur in the order of the characters. -/
theorem one_key_per_char (expression : String)
    (h : ∀ c ∈ expression.data, c.isDigit = true ∨ c ∈ ['+', '-', '*', '/']) :
    expressionKeyEvents expression =
      expression.data.map (fun c => KeyEvent.press (String.mk [c])) :=
  flatMap_charKeyEvents_of_valid expression.data h

/-- C6 witness at the expression 15+25. -/
theorem one_key_per_char_witness :
    expressionKeyEvents "15+25" =
      "15+25".data.map (fun c => KeyEvent.press (String.mk [c])) :=
  one_key_per_char "15+25" (by decide)

/-- C7 (confirmed): a character that is neither a digit in Python's sense
(str.isdigit) nor one of `+ - * /` produces no key event, the loop raises no
error on it, and the characters before and after it are processed exactly as
they would be on their own. -/
theorem unknown_char_ignored (c : Char)
    (hd : pyIsDigit c = false) (hop : c ∉ ['+', '-', '*', '/']) :
    charKeyEvents c = [] ∧
    ∀ pre post : List Char,
      expressionKeyEvents (String.mk (pre ++ c :: post)) =
        expressionKeyEvents (String.mk pre) ++ expressionKeyEvents (String.mk post) := by
  have hnil : charKeyEvents c = [] := by
    simp [charKeyEvents, hd, lookup_key_mapping_eq_none c hop]
  refine ⟨hnil, fun pre post => ?_⟩
  show (pre ++ c :: post).flatMap charKeyEvents =
    pre.flatMap charKeyEvents ++ post.flatMap charKeyEvents
  rw [List.flatMap_append, List.flatMap_cons, hnil]
  simp

/-- C7 witness at the character x between 1 and 2. -/
theorem unknown_char_ignored_witness :
    expressionKeyEvents (String.mk (['1'] ++ 'x' :: ['2'])) =
      expressionKeyEvents (String.mk ['1']) ++ expressionKeyEvents (String.mk ['2']) :=
  (unknown_char_ignored 'x' (by decide) (by decide)).2 ['1'] ['2']

/-- C8 (confirmed): the result `perform_calculation_rpa` reads back is the
clipboard text with surrounding whitespace stripped and every comma removed,
and when `pyperclip` is not importable it is the sentinel Result_Read_Error
rather than an exception. -/
theorem result_reader_contract :
    (∀ s expr : String,
        (perform_calculation_rpa { pyperclipInstalled := true, clipboardText := s } expr).2 =
          String.mk ((pyStrip s.data).filter (fun c => c ≠ ','))) ∧
    (∀ s expr : String,
        (perform_calculation_rpa { pyperclipInstalled := false, clipboardText := s } expr).2 =
          "Result_Read_Error") := by
  constructor
  · intro s expr
    simp [perform_calculation_rpa, readClipboard, pyReplaceComma_eq_filter]
  · intro s expr
    rfl

/-- C9 counterexample: when `close_calculator` raises, the flow run's observed
outcome is the close failure, not the original error — the `finally`-block
close is not best-effort. -/
theorem close_error_replaces_original :
    (calculator_automation_stream envCloseFails ["1+1"]).outcome =
      Except.error (PyError.calledProcessError "tell application Calculator to quit") ∧
    PyError.calledProcessError "tell application Calculator to quit" ≠
      PyError.nameError "total_count" :=
  ⟨rfl, by decide⟩

/-- C9 (corrected): the close call inside the `except` cleanup is swallowed —
the run still performs its second close and re-raises — but the close call in
the `finally` block is not protected: when `close_calculator` raises there, its
exception propagates out of the flow and replaces the original error. -/
theorem finally_close_not_swallowed (env : FlowEnv) (calcs : List String)
    (hopen : env.openRaises = false) :
    (calculator_automation_stream env calcs).closeCalls = 2 ∧
    (calculator_automation_stream env calcs).outcome =
      (if env.closeRaises then
         Except.error (PyError.calledProcessError "tell application Calculator to quit")
       else Except.error (PyError.nameError "total_count")) := by
  unfold calculator_automation_stream
  simp only [open_calculator, hopen, Bool.false_eq_true, if_false,
    calculator_flow_try_raises]
  cases hc : env.closeRaises with
  | true => simp [close_calculator, hc]
  | false => simp [close_calculator, hc]

/-- C9 witness at the environment whose quit command fails. -/
theorem finally_close_not_swallowed_witness :
    (calculator_automation_stream envCloseFails ["2*3"]).closeCalls = 2 ∧
    (calculator_automation_stream envCloseFails ["2*3"]).outcome =
      (if envCloseFails.closeRaises then
         Except.error (PyError.calledProcessError "tell application Calculator to quit")
       else Except.error (PyError.nameError "total_count")) :=
  finally_close_not_swallowed envCloseFails ["2*3"] rfl

/-- C10 (confirmed): every task attempt raises `NameError` at its first
statement because `get_run_logger` is unbound, and no flow run returns a
value: for every environment and input the outcome of
`calculator_automation_stream` is an exception. -/
theorem flow_always_raises :
    (∀ env expr, perform_calculation env expr =
        Except.error (PyError.nameError "get_run_logger")) ∧
    (∀ env calcs, ∃ e,
        (calculator_automation_stream env calcs).outcome = Except.error e) := by
  constructor
  · intro env expr
    rfl
  · intro env calcs
    unfold calculator_automation_stream
    cases hopen : open_calculator env with
    | error e => exact ⟨e, rfl⟩
    | ok u =>
        rw [calculator_flow_try_raises]
        cases hclose : close_calculator env with
        | ok v => exact ⟨PyError.nameError "total_count", rfl⟩
        | error ce => exact ⟨ce, rfl⟩

end CalculatorStream
